import Mathlib

/-!
# Verification of the ftd-analytics pattern-aggregation and EV-scoring engine

Shallow embedding of the scoring core of the repository:
* `src/scraper.py` — `calculate_ev` (EV scorer);
* `src/db.py` — `kelly_stake`, `update_prediction_result`;
* `src/draw_analyzer.py` — `_identify_patterns`, `learn_from_marked_results`,
  `combine_patterns`;
* `src/app.py` — `perform_analysis` (aggregate-boost computation and the
  EV > 5 persistence filter), and the scheduling paths
  `run_initial_analysis` / `run_daily_analysis` / `trigger_analysis`.

Python floats are modelled as exact rationals (`ℚ`); Python's `round`
(banker's rounding, round half to even) is modelled by `round_half_even` /
`pyRound`; Python exceptions (the uncaught `ZeroDivisionError` in
`kelly_stake`) are modelled by `Option`.
-/

namespace FTD

/-! ## Python string containment (`needle in hay`) -/

/-- `listPre n h` : `n` is a leading segment of `h` (over `List Char`). -/
def listPre : List Char → List Char → Bool
  | [], _ => true
  | _ :: _, [] => false
  | a :: as, b :: bs => a == b && listPre as bs

/-- `listSub n h` : `n` occurs contiguously inside `h` (over `List Char`). -/
def listSub (n : List Char) : List Char → Bool
  | [] => listPre n []
  | c :: cs => listPre n (c :: cs) || listSub n cs

/-- Python's substring test `needle in hay`. -/
def strIn (needle hay : String) : Bool :=
  listSub needle.data hay.data

/-! ## Python `round` on exact rationals -/

/-- Round a rational to the nearest integer, ties to the even integer —
Python's `round(x)` convention (banker's rounding). -/
def round_half_even (x : ℚ) : ℤ :=
  let f : ℤ := ⌊x⌋
  let r : ℚ := x - (f : ℚ)
  if r < 1/2 then f
  else if 1/2 < r then f + 1
  else if 2 ∣ f then f else f + 1

/-- Python's `round(x, n)` on exact rationals. -/
def pyRound (x : ℚ) (n : ℕ) : ℚ :=
  (round_half_even (x * 10 ^ n) : ℚ) / 10 ^ n

theorem round_half_even_eq_floor_or_succ (x : ℚ) :
    round_half_even x = ⌊x⌋ ∨ round_half_even x = ⌊x⌋ + 1 := by
  unfold round_half_even
  dsimp only
  split_ifs <;> simp

theorem round_half_even_nonneg {x : ℚ} (hx : 0 ≤ x) : 0 ≤ round_half_even x := by
  have hf : (0:ℤ) ≤ ⌊x⌋ := Int.le_floor.mpr (by exact_mod_cast hx)
  rcases round_half_even_eq_floor_or_succ x with h | h <;> omega

theorem round_half_even_le {x : ℚ} {n : ℤ} (hx : x ≤ (n : ℚ)) :
    round_half_even x ≤ n := by
  have hf : ⌊x⌋ ≤ n := by
    have := Int.floor_le_floor (α := ℚ) hx
    simpa using this
  rcases lt_or_eq_of_le hf with hlt | heq
  · rcases round_half_even_eq_floor_or_succ x with h | h <;> omega
  · -- `⌊x⌋ = n`, so the fractional part is nonpositive and we round down
    unfold round_half_even
    dsimp only
    have hr : x - (⌊x⌋ : ℚ) < 1/2 := by
      have : x - (⌊x⌋ : ℚ) ≤ 0 := by
        rw [heq]; linarith
      linarith
    rw [if_pos hr]
    exact hf

theorem pyRound_nonneg {x : ℚ} (n : ℕ) (hx : 0 ≤ x) : 0 ≤ pyRound x n := by
  unfold pyRound
  have h0 : (0:ℤ) ≤ round_half_even (x * 10 ^ n) :=
    round_half_even_nonneg (by positivity)
  have hp : (0:ℚ) < 10 ^ n := by positivity
  exact div_nonneg (by exact_mod_cast h0) (le_of_lt hp)

theorem pyRound_le_of_le {x : ℚ} {n : ℕ} {m : ℤ} (h : x * 10 ^ n ≤ (m : ℚ)) :
    pyRound x n ≤ (m : ℚ) / 10 ^ n := by
  unfold pyRound
  have h0 : round_half_even (x * 10 ^ n) ≤ m := round_half_even_le h
  have hp : (0:ℚ) < 10 ^ n := by positivity
  exact div_le_div_of_nonneg_right (by exact_mod_cast h0) hp.le

/-! ## EV scorer (`src/scraper.py`, `calculate_ev`) -/

/-- A scraped fixture record, as consumed by `calculate_ev`
(the fields of the `match` dict that the scorer reads). -/
structure Match where
  league : String
  draw_odds : ℚ
  liquidity : ℚ
  deriving DecidableEq

/-- `draw_prone_leagues` list from `calculate_ev`. -/
def draw_prone_leagues : List String :=
  ["Championship", "League One", "League Two", "Scottish", "Primeira Liga", "Eredivisie"]

/-- The record returned by `calculate_ev`: the input fixture's fields
(spread via `{**match, ...}`) plus the derived scoring fields. -/
structure EvResult where
  league : String
  draw_odds : ℚ
  liquidity : ℚ
  model_prob : ℚ
  ev_percent : ℚ
  reasons : String
  date : String := ""
  deriving DecidableEq

/-- `calculate_ev(match, pattern_boosts)` from `src/scraper.py`:
sequentially accumulates the base probability `0.28 + pattern_boosts`,
`+0.08` on a draw-prone-league substring match, `+0.06` / `+0.04` on low
draw odds, `+0.03` on liquidity above 1,000,000; caps at `0.45`; computes
`ev = model_prob * draw_odds - 1`; returns `model_prob` rounded to 3
decimals, `ev_percent = round(ev * 100, 1)` and the joined reasons. -/
def calculate_ev (m : Match) (pattern_boosts : ℚ) : EvResult :=
  let base0 : ℚ := 28/100 + pattern_boosts
  let leagueHit : Bool := draw_prone_leagues.any (fun l => strIn l m.league)
  let base1 : ℚ := if leagueHit then base0 + 8/100 else base0
  let base2 : ℚ :=
    if m.draw_odds < 36/10 then base1 + 6/100
    else if m.draw_odds < 38/10 then base1 + 4/100
    else base1
  let base3 : ℚ := if 1000000 < m.liquidity then base2 + 3/100 else base2
  let model_prob : ℚ := min base3 (45/100)
  let ev : ℚ := model_prob * m.draw_odds - 1
  let reasons : List String :=
    (if leagueHit then ["HIGH DRAW LEAGUE"] else [])
      ++ (if m.draw_odds < 36/10 then ["LOW ODDS"] else [])
      ++ ["AI MODEL"]
  { league := m.league
    draw_odds := m.draw_odds
    liquidity := m.liquidity
    model_prob := pyRound model_prob 3
    ev_percent := pyRound (ev * 100) 1
    reasons := String.intercalate ", " reasons }

/-! ## Kelly stake (`src/db.py`, `kelly_stake`) -/

/-- `kelly_stake(bankroll, odds, prob)` from `src/db.py`.  The Python body
is `kelly_fraction = (prob * odds - 1) / (odds - 1)` followed by
`max(0, min(bankroll * kelly_fraction * 0.25, bankroll * 0.05))`; when
`odds == 1.0` the division raises an uncaught `ZeroDivisionError`,
modelled here as `none`. -/
def kelly_stake (bankroll odds prob : ℚ) : Option ℚ :=
  if odds = 1 then none
  else
    let kelly_fraction : ℚ := (prob * odds - 1) / (odds - 1)
    some (max 0 (min (bankroll * kelly_fraction * (25/100)) (bankroll * (5/100))))

example : (calculate_ev ⟨"Championship", 7/2, 2000000⟩ (5/100)).model_prob = 45/100 := by
  have hl : (draw_prone_leagues.any (fun l => strIn l "Championship")) = true := by decide
  norm_num [calculate_ev, hl, pyRound, round_half_even]

example : (calculate_ev ⟨"Championship", 7/2, 2000000⟩ (5/100)).ev_percent = 575/10 := by
  have hl : (draw_prone_leagues.any (fun l => strIn l "Championship")) = true := by decide
  norm_num [calculate_ev, hl, pyRound, round_half_even]

example : (calculate_ev ⟨"Championship", 7/2, 2000000⟩ (5/100)).reasons
    = "HIGH DRAW LEAGUE, LOW ODDS, AI MODEL" := by
  have hl : (draw_prone_leagues.any (fun l => strIn l "Championship")) = true := by decide
  norm_num [calculate_ev, hl, pyRound, round_half_even]
  decide

example : (calculate_ev ⟨"Zed", 21/5, 0⟩ 0).ev_percent = 176/10 := by
  have hl : (draw_prone_leagues.any (fun l => strIn l "Zed")) = false := by decide
  norm_num [calculate_ev, hl, pyRound, round_half_even]

example : kelly_stake 1000 1 (55/100) = none := by
  norm_num [kelly_stake]

/-- **C2** (code defect).  `kelly_stake` performs the division
`(prob*odds - 1)/(odds - 1)` with no guard, so the degenerate input
`odds == 1.0` raises an uncaught `ZeroDivisionError` (modelled as `none`)
instead of being rejected or treated as a zero stake: at
`bankroll = 1000, odds = 1.0, prob = 0.55` the call errors and in particular
does not return the zero stake. -/
theorem kelly_stake_odds_one_divides_by_zero :
    kelly_stake 1000 1 (55/100) = none ∧ kelly_stake 1000 1 (55/100) ≠ some 0 := by
  refine ⟨by norm_num [kelly_stake], ?_⟩
  rw [show kelly_stake 1000 1 (55/100) = none by norm_num [kelly_stake]]
  simp

/-! ## Closed-form view of the scorer's probability -/

/-- The `+0.08` draw-prone-league adjustment as an independent additive term. -/
def leagueAdj (m : Match) : ℚ :=
  if draw_prone_leagues.any (fun l => strIn l m.league) then 8/100 else 0

/-- The `+0.06` / `+0.04` low-odds adjustment as an independent additive term. -/
def oddsAdj (m : Match) : ℚ :=
  if m.draw_odds < 36/10 then 6/100 else if m.draw_odds < 38/10 then 4/100 else 0

/-- The `+0.03` liquidity adjustment as an independent additive term. -/
def liqAdj (m : Match) : ℚ :=
  if 1000000 < m.liquidity then 3/100 else 0

/-- The capped model probability in the closed form used by the claim:
`min(0.28 + boost + league + odds + liquidity, 0.45)`. -/
def cappedProb (m : Match) (b : ℚ) : ℚ :=
  min (28/100 + b + leagueAdj m + oddsAdj m + liqAdj m) (45/100)

theorem leagueAdj_nonneg (m : Match) : 0 ≤ leagueAdj m := by
  unfold leagueAdj; split_ifs <;> norm_num

theorem oddsAdj_nonneg (m : Match) : 0 ≤ oddsAdj m := by
  unfold oddsAdj; split_ifs <;> norm_num

theorem liqAdj_nonneg (m : Match) : 0 ≤ liqAdj m := by
  unfold liqAdj; split_ifs <;> norm_num

theorem calculate_ev_model_prob_eq (m : Match) (b : ℚ) :
    (calculate_ev m b).model_prob = pyRound (cappedProb m b) 3 := by
  unfold calculate_ev cappedProb leagueAdj oddsAdj liqAdj
  dsimp only
  split_ifs <;>
    exact congrArg (fun t => pyRound (min t (45/100)) 3) (by ring)

theorem calculate_ev_ev_percent_eq (m : Match) (b : ℚ) :
    (calculate_ev m b).ev_percent = pyRound ((cappedProb m b * m.draw_odds - 1) * 100) 1 := by
  unfold calculate_ev cappedProb leagueAdj oddsAdj liqAdj
  dsimp only
  split_ifs <;>
    exact congrArg (fun t => pyRound ((min t (45/100) * m.draw_odds - 1) * 100) 1) (by ring)

/-- **C1** (amended).  For every fixture and every aggregate boost,
`calculate_ev` returns `model_prob` equal to `min(0.28 + boost + 0.08·[league]
+ 0.06/0.04·[odds] + 0.03·[liquidity], 0.45)` *rounded to three decimal
places* (the claim omits that rounding), `model_prob ≤ 0.45`, and `ev_percent`
equal to `(p · draw_odds − 1) · 100` rounded to one decimal place, where `p`
is the capped probability before the three-decimal rounding — all
unconditionally; the lower bound `0 ≤ model_prob` holds whenever
`boost ≥ -0.28` (the counterexample shows it can fail for more negative
boosts). -/
theorem calculate_ev_capped_bounded (m : Match) (b : ℚ) :
    (calculate_ev m b).model_prob = pyRound (cappedProb m b) 3 ∧
    (calculate_ev m b).model_prob ≤ 45/100 ∧
    (calculate_ev m b).ev_percent = pyRound ((cappedProb m b * m.draw_odds - 1) * 100) 1 ∧
    (-(28/100) ≤ b → 0 ≤ (calculate_ev m b).model_prob) := by
  have hmp := calculate_ev_model_prob_eq m b
  refine ⟨hmp, ?_, calculate_ev_ev_percent_eq m b, ?_⟩
  · rw [hmp]
    have hcap45 : cappedProb m b ≤ 45/100 := min_le_right _ _
    have h450 : cappedProb m b * 10 ^ 3 ≤ ((450 : ℤ) : ℚ) := by
      push_cast; nlinarith
    calc pyRound (cappedProb m b) 3 ≤ ((450:ℤ):ℚ) / 10 ^ 3 := pyRound_le_of_le h450
      _ = 45/100 := by norm_num
  · intro hb
    rw [hmp]
    refine pyRound_nonneg 3 (le_min ?_ (by norm_num))
    have h1 := leagueAdj_nonneg m
    have h2 := oddsAdj_nonneg m
    have h3 := liqAdj_nonneg m
    linarith

/-- **C1** witness: the spec's `Championship / 3.50 / 2,000,000 / boost 0.05`
scenario satisfies the lower-bound hypothesis and both bounds. -/
theorem calculate_ev_capped_bounded_witness :
    -(28/100) ≤ (5:ℚ)/100 ∧
    0 ≤ (calculate_ev ⟨"Championship", 7/2, 2000000⟩ (5/100)).model_prob ∧
    (calculate_ev ⟨"Championship", 7/2, 2000000⟩ (5/100)).model_prob ≤ 45/100 :=
  ⟨by norm_num,
   (calculate_ev_capped_bounded ⟨"Championship", 7/2, 2000000⟩ (5/100)).2.2.2 (by norm_num),
   (calculate_ev_capped_bounded ⟨"Championship", 7/2, 2000000⟩ (5/100)).2.1⟩

/-- **C1** counterexample: at boost `-0.7251` on an unknown league the
returned `model_prob` is `round(-0.4451, 3) = -0.445`, which differs from the
claimed exact `min` value `-0.4451` and violates the claimed `0 ≤ model_prob`. -/
theorem calculate_ev_claim_counterexample :
    (calculate_ev ⟨"Zed", 4, 0⟩ (-7251/10000)).model_prob
        ≠ cappedProb ⟨"Zed", 4, 0⟩ (-7251/10000) ∧
    ¬ (0 ≤ (calculate_ev ⟨"Zed", 4, 0⟩ (-7251/10000)).model_prob) := by
  have hl : (draw_prone_leagues.any (fun l => strIn l "Zed")) = false := by decide
  constructor <;>
    norm_num [calculate_ev, cappedProb, leagueAdj, oddsAdj, liqAdj, hl, pyRound,
      round_half_even]

/-! ## Pattern records and the combiner (`src/draw_analyzer.py`) -/

/-- A pattern record (the dict shape produced by the evidence sources).
`weight` and `source` are `Option`s because the producing sources do not set
them; `combine_patterns` writes them into the records in place. -/
structure Pattern where
  ptype : String
  count : ℕ
  boost : ℚ
  weight : Option ℚ := none
  source : Option String := none
  deriving DecidableEq

/-- The in-place writes `pattern['weight'] = 3.0; pattern['source'] = 'recent_draws'`
performed by `combine_patterns` on each recent-draws pattern. -/
def set_recent_fields (p : Pattern) : Pattern :=
  { p with weight := some 3, source := some "recent_draws" }

/-- The in-place write `pattern['weight'] = 2.0` performed by
`combine_patterns` on each learned pattern (no `source` is written). -/
def set_learned_fields (p : Pattern) : Pattern :=
  { p with weight := some 2 }

/-- The in-place writes `pattern['weight'] = 1.0; pattern['source'] = 'static_research'`
performed by `combine_patterns` on each static pattern. -/
def set_static_fields (p : Pattern) : Pattern :=
  { p with weight := some 1, source := some "static_research" }

/-- The observable outcome of one `combine_patterns` call: the post-state of
the three input lists (whose records are mutated in place by the Python code)
and the returned `patterns` list and `total_boost`. -/
structure CombineCall where
  recent_after : List Pattern
  learned_after : List Pattern
  static_after : List Pattern
  patterns : List Pattern
  total_boost : ℚ
  deriving DecidableEq

/-- `DrawAnalyzer.combine_patterns` from `src/draw_analyzer.py`: tags every
pattern with its source weight (recent 3.0, learned 2.0, static 1.0),
concatenates, and returns `Σ(boost·weight)/Σweight` if the total weight is
positive, else 0. -/
def combine_patterns (r l s : List Pattern) : CombineCall :=
  let r' := r.map set_recent_fields
  let l' := l.map set_learned_fields
  let s' := s.map set_static_fields
  let all := r' ++ l' ++ s'
  let total_weight : ℚ := (all.map (fun p => p.weight.getD 0)).sum
  let weighted_boost : ℚ :=
    if 0 < total_weight then
      (all.map (fun p => p.boost * p.weight.getD 0)).sum / total_weight
    else 0
  ⟨r', l', s', all, weighted_boost⟩

/-- The aggregate boost actually handed to `calculate_ev` by
`perform_analysis` in `src/app.py`:
`sum(p.get('boost', 0) for p in draw_patterns) / max(1, len(draw_patterns))`. -/
def perform_analysis_boost (ps : List Pattern) : ℚ :=
  (ps.map (fun p => p.boost)).sum / ((max 1 ps.length : ℕ) : ℚ)

/-- The aggregate boost as the claim words it (spec-side comparator, written
from the claim's text, not from the source): the weighted mean of all pattern
boosts with source weights recent 3.0 / learned 2.0 / static 1.0, and 0 when
the combined pattern set is empty. -/
def specAggregateBoost (r l s : List Pattern) : ℚ :=
  let tw : ℚ := 3 * r.length + 2 * l.length + s.length
  if tw = 0 then 0
  else (3 * (r.map (fun p => p.boost)).sum + 2 * (l.map (fun p => p.boost)).sum
        + (s.map (fun p => p.boost)).sum) / tw

theorem sum_map_const {α : Type} (xs : List α) (c : ℚ) :
    (xs.map fun _ => c).sum = xs.length * c := by
  induction xs with
  | nil => simp
  | cons x xs ih => simp [ih]; ring

theorem sum_map_mul_const {α : Type} (xs : List α) (f : α → ℚ) (c : ℚ) :
    (xs.map fun x => f x * c).sum = c * (xs.map f).sum := by
  induction xs with
  | nil => simp
  | cons x xs ih => simp [ih]; ring

/-- **C3** (amended).  `combine_patterns` does return the source-weighted mean
`Σ(boost·weight)/Σ(weight)` with weights recent 3.0 / learned 2.0 / static 1.0
(0 when the pattern set is empty); but the aggregate boost that
`perform_analysis` actually hands to the EV scorer is the *unweighted* mean
`sum(boosts) / max(1, n)` of the researched pattern list — `combine_patterns`'
output is not used in the scoring path.  The handed boost is 0 on an empty
list (no division by zero). -/
theorem combine_patterns_weighted_mean (r l s : List Pattern) :
    (combine_patterns r l s).total_boost = specAggregateBoost r l s ∧
    perform_analysis_boost [] = 0 ∧
    (∀ ps : List Pattern, ps ≠ [] →
      perform_analysis_boost ps = (ps.map (fun p => p.boost)).sum / (ps.length : ℚ)) := by
  refine ⟨?_, by simp [perform_analysis_boost], ?_⟩
  · unfold combine_patterns specAggregateBoost
    dsimp only
    rw [List.map_append, List.map_append, List.sum_append, List.sum_append,
        List.map_append, List.map_append, List.sum_append, List.sum_append]
    rw [List.map_map, List.map_map, List.map_map, List.map_map, List.map_map,
        List.map_map]
    simp only [Function.comp_def, set_recent_fields, set_learned_fields,
      set_static_fields, Option.getD_some]
    rw [sum_map_const, sum_map_const, sum_map_const,
        sum_map_mul_const, sum_map_mul_const, sum_map_mul_const]
    have harr : ((r.length : ℚ) * 3 + (l.length : ℚ) * 2 + (s.length : ℚ) * 1)
        = 3 * (r.length : ℚ) + 2 * (l.length : ℚ) + (s.length : ℚ) := by ring
    rw [harr]
    by_cases h0 : (3 * (r.length : ℚ) + 2 * (l.length : ℚ) + (s.length : ℚ)) = 0
    · rw [if_neg (by rw [h0]; exact lt_irrefl 0), if_pos h0]
    · have hnn : (0:ℚ) ≤ 3 * (r.length : ℚ) + 2 * (l.length : ℚ) + (s.length : ℚ) := by
        positivity
      rw [if_pos (lt_of_le_of_ne hnn (Ne.symm h0)), if_neg h0]
      ring_nf
  · intro ps hps
    unfold perform_analysis_boost
    have hlen : 1 ≤ ps.length := List.length_pos.mpr hps
    rw [max_eq_right hlen]

/-- **C3** witness: with one learned pattern of boost `0.4` and one static
pattern of boost `0`, the combiner's weighted mean is as claimed, and the
unweighted mean over a singleton list is the plain mean. -/
theorem combine_patterns_weighted_mean_witness :
    (combine_patterns [] [⟨"learned_x", 2, 2/5, none, none⟩]
        [⟨"lower_league_edge", 18, 0, none, none⟩]).total_boost
      = specAggregateBoost [] [⟨"learned_x", 2, 2/5, none, none⟩]
          [⟨"lower_league_edge", 18, 0, none, none⟩] ∧
    perform_analysis_boost [⟨"learned_x", 2, 2/5, none, none⟩]
      = (([⟨"learned_x", 2, 2/5, none, none⟩] : List Pattern).map
          (fun p => p.boost)).sum / (([⟨"learned_x", 2, 2/5, none, none⟩] : List Pattern).length : ℚ) :=
  ⟨(combine_patterns_weighted_mean [] [⟨"learned_x", 2, 2/5, none, none⟩]
      [⟨"lower_league_edge", 18, 0, none, none⟩]).1,
   (combine_patterns_weighted_mean [] [] []).2.2 [⟨"learned_x", 2, 2/5, none, none⟩]
      (by simp)⟩

/-- **C3** counterexample: a cycle whose pattern set is one learned pattern
(boost `0.4`, weight `2.0`) and one static pattern (boost `0`, weight `1.0`).
The claimed weighted mean is `(0.4·2 + 0·1)/3 = 4/15`, but the boost the code
hands to the EV scorer is the unweighted mean `(0.4 + 0)/2 = 1/5`. -/
theorem aggregate_boost_claim_counterexample :
    perform_analysis_boost
        [⟨"learned_x", 2, 2/5, none, none⟩, ⟨"lower_league_edge", 18, 0, none, none⟩]
      ≠ specAggregateBoost [] [⟨"learned_x", 2, 2/5, none, none⟩]
          [⟨"lower_league_edge", 18, 0, none, none⟩] := by
  norm_num [perform_analysis_boost, specAggregateBoost]

/-- **C8** (amended).  `calculate_ev` builds a fresh record and copies the
fixture's fields unchanged (it never writes into its input), and
`combine_patterns` is deterministic — but it *mutates its input Pattern
records in place*: every recent pattern's `weight` becomes `3.0` and `source`
becomes `'recent_draws'`, every learned pattern's `weight` becomes `2.0`, and
every static pattern's `weight` becomes `1.0` and `source`
`'static_research'`; all other fields are preserved. -/
theorem scorer_and_combiner_effects (m : Match) (b : ℚ) (r l s : List Pattern) :
    (calculate_ev m b).league = m.league ∧
    (calculate_ev m b).draw_odds = m.draw_odds ∧
    (calculate_ev m b).liquidity = m.liquidity ∧
    (∀ p ∈ (combine_patterns r l s).recent_after, ∃ q ∈ r,
        p.ptype = q.ptype ∧ p.count = q.count ∧ p.boost = q.boost ∧
        p.weight = some 3 ∧ p.source = some "recent_draws") ∧
    (∀ p ∈ (combine_patterns r l s).learned_after, ∃ q ∈ l,
        p.ptype = q.ptype ∧ p.count = q.count ∧ p.boost = q.boost ∧
        p.weight = some 2 ∧ p.source = q.source) ∧
    (∀ p ∈ (combine_patterns r l s).static_after, ∃ q ∈ s,
        p.ptype = q.ptype ∧ p.count = q.count ∧ p.boost = q.boost ∧
        p.weight = some 1 ∧ p.source = some "static_research") := by
  refine ⟨rfl, rfl, rfl, ?_, ?_, ?_⟩ <;>
    · intro p hp
      simp only [combine_patterns, List.mem_map] at hp
      obtain ⟨q, hq, rfl⟩ := hp
      exact ⟨q, hq, rfl, rfl, rfl, rfl, rfl⟩

/-- **C8** witness: the mutated form of a concrete bare pattern is found in
the post-state of the recent input list, with `weight`/`source` written. -/
theorem scorer_and_combiner_effects_witness :
    ∃ q ∈ ([⟨"p", 1, 0, none, none⟩] : List Pattern),
      (Pattern.mk "p" 1 0 (some 3) (some "recent_draws")).ptype = q.ptype ∧
      (Pattern.mk "p" 1 0 (some 3) (some "recent_draws")).count = q.count ∧
      (Pattern.mk "p" 1 0 (some 3) (some "recent_draws")).boost = q.boost ∧
      (Pattern.mk "p" 1 0 (some 3) (some "recent_draws")).weight = some 3 ∧
      (Pattern.mk "p" 1 0 (some 3) (some "recent_draws")).source = some "recent_draws" :=
  (scorer_and_combiner_effects ⟨"Zed", 4, 0⟩ 0 [⟨"p", 1, 0, none, none⟩] [] []).2.2.2.1
    (Pattern.mk "p" 1 0 (some 3) (some "recent_draws"))
    (by simp [combine_patterns, set_recent_fields])

/-- **C8** counterexample: `combine_patterns` does *not* leave its input
records unchanged — after the call the recent input list's record has had
`weight` and `source` fields written into it. -/
theorem combiner_mutates_inputs_counterexample :
    (combine_patterns [⟨"p", 1, 0, none, none⟩] [] []).recent_after
      ≠ [⟨"p", 1, 0, none, none⟩] := by
  simp [combine_patterns, set_recent_fields]

/-! ## Recent-draws discovery (`src/draw_analyzer.py`, `_identify_patterns`) -/

/-- A drawn match as extracted by `_extract_draw_data` (the fields the
league-pattern construction reads). -/
structure Draw where
  league : String
  score : String
  deriving DecidableEq

/-- First-occurrence-order deduplication, modelling iteration over the keys
of a Python dict built by insertion. -/
def uniqueKeys {α : Type} [DecidableEq α] (xs : List α) : List α :=
  xs.foldl (fun acc x => if x ∈ acc then acc else acc ++ [x]) []

/-- Python's `league.lower().replace(' ', '_')`. -/
def pyIdent (s : String) : String :=
  String.mk (s.data.map (fun c => if c = ' ' then '_' else c.toLower))

/-- The boost step function of `_identify_patterns`: the
`if draw_count >= 10 ... elif ... else 0.03` chain. -/
def leagueBoost (draw_count : ℕ) : ℚ :=
  if 10 ≤ draw_count then 18/100
  else if 7 ≤ draw_count then 15/100
  else if 5 ≤ draw_count then 12/100
  else if 3 ≤ draw_count then 9/100
  else if 2 ≤ draw_count then 6/100
  else 3/100

/-- Number of draws recorded for a league. -/
def leagueDrawCount (draws : List Draw) (lg : String) : ℕ :=
  (draws.filter (fun d => d.league == lg)).length

/-- The league hot-streak patterns produced by `_identify_patterns`: one
pattern per league with at least one draw, boost given by `leagueBoost` of
that league's draw count.  (The function's geographic and scoreline patterns,
and the count-descending sort used only for logging and `rank`, are separate
outputs outside this construction.) -/
def identify_league_patterns (draws : List Draw) : List Pattern :=
  if draws = [] then []
  else
    ((uniqueKeys (draws.map (fun d => d.league))).filter
        (fun lg => 1 ≤ leagueDrawCount draws lg)).map
      (fun lg =>
        { ptype := pyIdent lg ++ "_hot_streak"
          count := leagueDrawCount draws lg
          boost := leagueBoost (leagueDrawCount draws lg) })

/-- **C7**.  Every league hot-streak pattern carries the boost the step
function assigns to its draw count; the step function is monotone
non-decreasing, gives the minimal non-zero boost `0.03` to a count of 1, and
saturates at exactly `0.18` for every count of 10 or more. -/
theorem identify_patterns_step_boost (draws : List Draw) (p : Pattern)
    (hp : p ∈ identify_league_patterns draws) (a b : ℕ) (hab : a ≤ b) :
    p.boost = leagueBoost p.count ∧
    leagueBoost a ≤ leagueBoost b ∧
    leagueBoost 1 = 3/100 ∧
    (0 < leagueBoost a ∧ leagueBoost 1 ≤ leagueBoost a) ∧
    (10 ≤ b → leagueBoost b = 18/100) := by
  refine ⟨?_, ?_, by norm_num [leagueBoost], ⟨?_, ?_⟩, ?_⟩
  · unfold identify_league_patterns at hp
    split_ifs at hp with h
    · simp at hp
    · simp only [List.mem_map, List.mem_filter] at hp
      obtain ⟨lg, _, rfl⟩ := hp
      rfl
  · unfold leagueBoost
    split_ifs <;> (try (exfalso; omega)) <;> norm_num
  · unfold leagueBoost
    split_ifs <;> norm_num
  · unfold leagueBoost
    split_ifs <;> (try (exfalso; omega)) <;> norm_num
  · intro hb10
    unfold leagueBoost
    rw [if_pos hb10]

/-- The spec's 12-recent-draws scenario for one league. -/
def draws12 : List Draw := List.replicate 12 ⟨"Serie A", "1-1"⟩

/-- **C7** witness: 12 draws in one league produce the saturated boost
`0.18`, and the pattern carries the step function's value. -/
theorem identify_patterns_step_boost_witness :
    (Pattern.mk (pyIdent "Serie A" ++ "_hot_streak") 12 (leagueBoost 12) none none).boost
      = leagueBoost (Pattern.mk (pyIdent "Serie A" ++ "_hot_streak") 12 (leagueBoost 12) none none).count ∧
    leagueBoost 10 ≤ leagueBoost 12 ∧
    leagueBoost 1 = 3/100 ∧
    (0 < leagueBoost 10 ∧ leagueBoost 1 ≤ leagueBoost 10) ∧
    (10 ≤ 12 → leagueBoost 12 = 18/100) :=
  identify_patterns_step_boost draws12
    (Pattern.mk (pyIdent "Serie A" ++ "_hot_streak") 12 (leagueBoost 12) none none)
    (by
      rw [show identify_league_patterns draws12
            = [Pattern.mk (pyIdent "Serie A" ++ "_hot_streak") 12 (leagueBoost 12) none none]
          from rfl]
      exact List.mem_singleton_self _)
    10 12 (by norm_num)

/-! ## Outcome learner (`src/draw_analyzer.py`, `learn_from_marked_results`) -/

/-- A row of the `predictions` table, with the fields read by the learner,
the marker and the persistence filter.  Dates are abstracted to day numbers
so the SQL trailing-window comparison `date >= date('now','-30 days')`
becomes `cut ≤ date`. -/
structure PredRow where
  id : ℕ
  date : ℕ
  league : String
  reasons : String
  status : String
  result : Option String := none
  stake_amount : ℚ := 0
  ev_percent : ℚ := 0
  deriving DecidableEq

/-- Rows of a given status inside the trailing window (the SQL `WHERE`
clause of the learner's two queries). -/
def statusRows (rows : List PredRow) (st : String) (cut : ℕ) : List PredRow :=
  rows.filter (fun r => r.status == st && decide (cut ≤ r.date))

/-- Sample count of one `(league, reasons)` group (SQL `GROUP BY` count). -/
def groupCount (rows : List PredRow) (st : String) (cut : ℕ) (k : String × String) : ℕ :=
  ((statusRows rows st cut).filter (fun r => r.league == k.1 && r.reasons == k.2)).length

/-- The `(league, reasons)` groups surviving `HAVING COUNT(*) >= 2`. -/
def groupKeys (rows : List PredRow) (st : String) (cut : ℕ) : List (String × String) :=
  (uniqueKeys ((statusRows rows st cut).map (fun r => (r.league, r.reasons)))).filter
    (fun k => 2 ≤ groupCount rows st cut k)

/-- `confidence_boost = min(0.20, hits * 0.03)` for a HIT group. -/
def hitBoost (hits : ℕ) : ℚ := min (20/100) ((hits : ℚ) * (3/100))

/-- `penalty = -min(0.10, misses * 0.02)` for a MISS group. -/
def missPenalty (misses : ℕ) : ℚ := - min (10/100) ((misses : ℚ) * (2/100))

/-- The reward pattern the learner's successful-patterns loop builds for one
HIT group `k`. -/
def hitPattern (rows : List PredRow) (cut : ℕ) (k : String × String) : Pattern :=
  { ptype := "learned_" ++ pyIdent k.1
    count := groupCount rows "HIT" cut k
    boost := hitBoost (groupCount rows "HIT" cut k) }

/-- The penalty pattern the learner's failed-patterns loop builds for one
MISS group `k`. -/
def missPattern (rows : List PredRow) (cut : ℕ) (k : String × String) : Pattern :=
  { ptype := "avoid_" ++ pyIdent k.1
    count := groupCount rows "MISS" cut k
    boost := missPenalty (groupCount rows "MISS" cut k) }

/-- `DrawAnalyzer.learn_from_marked_results`: one reward pattern per HIT
group with at least 2 samples in the trailing window, one penalty pattern per
such MISS group. -/
def learn_from_marked_results (rows : List PredRow) (cut : ℕ) : List Pattern :=
  (groupKeys rows "HIT" cut).map (fun k => hitPattern rows cut k)
    ++ (groupKeys rows "MISS" cut).map (fun k => missPattern rows cut k)

/-- **C6**.  The learner emits patterns only for groups with at least 2
samples in the window, and every emitted pattern comes from a HIT group or a
MISS group: a pattern of a HIT group `k` is exactly `hitPattern k`, whose
boost `min(0.20, hits·0.03)` is positive, monotone in the hit count and at
most `0.20`; a pattern of a MISS group `k` is exactly `missPattern k`, whose
boost `-min(0.10, misses·0.02)` is negative, of magnitude monotone in the
miss count and at most `0.10`.  Conversely every HIT (resp. MISS) group that
survives the 2-sample filter has its reward (resp. penalty) pattern emitted. -/
theorem learn_min_samples_and_caps (rows : List PredRow) (cut : ℕ) (p : Pattern)
    (hp : p ∈ learn_from_marked_results rows cut) (a b : ℕ) (hab : a ≤ b) :
    2 ≤ p.count ∧
    ((∃ k ∈ groupKeys rows "HIT" cut, p = hitPattern rows cut k ∧
        p.count = groupCount rows "HIT" cut k ∧
        p.boost = hitBoost p.count ∧ 0 < p.boost ∧ p.boost ≤ 20/100) ∨
     (∃ k ∈ groupKeys rows "MISS" cut, p = missPattern rows cut k ∧
        p.count = groupCount rows "MISS" cut k ∧
        p.boost = missPenalty p.count ∧ p.boost < 0 ∧ -p.boost ≤ 10/100)) ∧
    (∀ k ∈ groupKeys rows "HIT" cut,
        hitPattern rows cut k ∈ learn_from_marked_results rows cut) ∧
    (∀ k ∈ groupKeys rows "MISS" cut,
        missPattern rows cut k ∈ learn_from_marked_results rows cut) ∧
    hitBoost a ≤ hitBoost b ∧
    -missPenalty a ≤ -missPenalty b := by
  have hmono : ∀ (c : ℚ), 0 ≤ c → ((a:ℚ)) * c ≤ ((b:ℚ)) * c := by
    intro c hc
    have : ((a:ℚ)) ≤ (b:ℚ) := by exact_mod_cast hab
    exact mul_le_mul_of_nonneg_right this hc
  have hhit : ∀ {n : ℕ}, 2 ≤ n → 0 < hitBoost n := by
    intro n hn
    refine lt_min (by norm_num) ?_
    have : (2:ℚ) ≤ (n:ℚ) := by exact_mod_cast hn
    nlinarith
  have hmiss : ∀ {n : ℕ}, 2 ≤ n → missPenalty n < 0 := by
    intro n hn
    have : (2:ℚ) ≤ (n:ℚ) := by exact_mod_cast hn
    unfold missPenalty
    have h0 : (0:ℚ) < min (10/100) ((n : ℚ) * (2/100)) := by
      refine lt_min (by norm_num) (by nlinarith)
    linarith
  have hcount : ∀ {st : String} {k : String × String}, k ∈ groupKeys rows st cut →
      2 ≤ groupCount rows st cut k := by
    intro st k hk
    exact of_decide_eq_true (List.mem_filter.mp hk).2
  refine ⟨?_, ?_, ?_, ?_, ?_, ?_⟩
  · rcases List.mem_append.mp hp with hmem | hmem <;>
    · obtain ⟨k, hk, rfl⟩ := List.mem_map.mp hmem
      exact hcount hk
  · rcases List.mem_append.mp hp with hmem | hmem
    · obtain ⟨k, hk, rfl⟩ := List.mem_map.mp hmem
      exact Or.inl ⟨k, hk, rfl, rfl, rfl, hhit (hcount hk), min_le_left _ _⟩
    · obtain ⟨k, hk, rfl⟩ := List.mem_map.mp hmem
      refine Or.inr ⟨k, hk, rfl, rfl, rfl, hmiss (hcount hk), ?_⟩
      simp only [missPattern, missPenalty, neg_neg]
      exact min_le_left _ _
  · intro k hk
    exact List.mem_append_left _ (List.mem_map_of_mem _ hk)
  · intro k hk
    exact List.mem_append_right _ (List.mem_map_of_mem _ hk)
  · exact min_le_min le_rfl (hmono _ (by norm_num))
  · simp only [missPenalty, neg_neg]
    exact min_le_min le_rfl (hmono _ (by norm_num))

/-- The spec's learner scenario: two HIT rows for
`("Scottish Championship", "HIGH DRAW LEAGUE, AI MODEL")`. -/
def hitRows : List PredRow :=
  [⟨1, 5, "Scottish Championship", "HIGH DRAW LEAGUE, AI MODEL", "HIT", none, 0, 0⟩,
   ⟨2, 6, "Scottish Championship", "HIGH DRAW LEAGUE, AI MODEL", "HIT", none, 0, 0⟩]

/-- **C6** witness: the two-sample HIT group of `hitRows` emits exactly its
reward pattern, with positive boost `min(0.20, 2·0.03) = 0.06 ≤ 0.20`. -/
theorem learn_min_samples_and_caps_witness :
    2 ≤ (hitPattern hitRows 0 ("Scottish Championship", "HIGH DRAW LEAGUE, AI MODEL")).count ∧
    ((∃ k ∈ groupKeys hitRows "HIT" 0,
        hitPattern hitRows 0 ("Scottish Championship", "HIGH DRAW LEAGUE, AI MODEL")
          = hitPattern hitRows 0 k ∧
        (hitPattern hitRows 0 ("Scottish Championship", "HIGH DRAW LEAGUE, AI MODEL")).count
          = groupCount hitRows "HIT" 0 k ∧
        (hitPattern hitRows 0 ("Scottish Championship", "HIGH DRAW LEAGUE, AI MODEL")).boost
          = hitBoost (hitPattern hitRows 0 ("Scottish Championship", "HIGH DRAW LEAGUE, AI MODEL")).count ∧
        0 < (hitPattern hitRows 0 ("Scottish Championship", "HIGH DRAW LEAGUE, AI MODEL")).boost ∧
        (hitPattern hitRows 0 ("Scottish Championship", "HIGH DRAW LEAGUE, AI MODEL")).boost ≤ 20/100) ∨
     (∃ k ∈ groupKeys hitRows "MISS" 0,
        hitPattern hitRows 0 ("Scottish Championship", "HIGH DRAW LEAGUE, AI MODEL")
          = missPattern hitRows 0 k ∧
        (hitPattern hitRows 0 ("Scottish Championship", "HIGH DRAW LEAGUE, AI MODEL")).count
          = groupCount hitRows "MISS" 0 k ∧
        (hitPattern hitRows 0 ("Scottish Championship", "HIGH DRAW LEAGUE, AI MODEL")).boost
          = missPenalty (hitPattern hitRows 0 ("Scottish Championship", "HIGH DRAW LEAGUE, AI MODEL")).count ∧
        (hitPattern hitRows 0 ("Scottish Championship", "HIGH DRAW LEAGUE, AI MODEL")).boost < 0 ∧
        -(hitPattern hitRows 0 ("Scottish Championship", "HIGH DRAW LEAGUE, AI MODEL")).boost ≤ 10/100)) ∧
    (∀ k ∈ groupKeys hitRows "HIT" 0,
        hitPattern hitRows 0 k ∈ learn_from_marked_results hitRows 0) ∧
    (∀ k ∈ groupKeys hitRows "MISS" 0,
        missPattern hitRows 0 k ∈ learn_from_marked_results hitRows 0) ∧
    hitBoost 2 ≤ hitBoost 3 ∧
    -missPenalty 2 ≤ -missPenalty 3 :=
  learn_min_samples_and_caps hitRows 0
    (hitPattern hitRows 0 ("Scottish Championship", "HIGH DRAW LEAGUE, AI MODEL"))
    (by
      rw [show learn_from_marked_results hitRows 0
            = [hitPattern hitRows 0 ("Scottish Championship", "HIGH DRAW LEAGUE, AI MODEL")]
          from rfl]
      exact List.mem_singleton_self _)
    2 3 (by norm_num)

/-! ## Marking results (`src/db.py`, `update_prediction_result`) -/

/-- `FTDDatabase.update_prediction_result(pred_id, result, stake)`: the SQL
`UPDATE predictions SET status = ?, result = ?, stake_amount = ? WHERE id = ?`
with `status = 'HIT' if result == 'draw' else 'MISS'`.  The update is
unconditional on the row's current status. -/
def update_prediction_result (rows : List PredRow) (pred_id : ℕ) (result : String)
    (stake : ℚ) : List PredRow :=
  rows.map (fun r =>
    if r.id = pred_id then
      { r with status := if result = "draw" then "HIT" else "MISS"
               result := some result
               stake_amount := stake }
    else r)

/-- **C10**.  For every result string, the marked row's status becomes `HIT`
exactly when the result is `"draw"`, becomes `MISS` for any other string, and
is never left `pending`. -/
theorem update_result_status (rows : List PredRow) (pred_id : ℕ) (res : String)
    (stake : ℚ) (r : PredRow) (hr : r ∈ update_prediction_result rows pred_id res stake)
    (hid : r.id = pred_id) :
    (r.status = "HIT" ↔ res = "draw") ∧
    (res ≠ "draw" → r.status = "MISS") ∧
    r.status ≠ "pending" := by
  simp only [update_prediction_result, List.mem_map] at hr
  obtain ⟨q, _, rfl⟩ := hr
  by_cases hq : q.id = pred_id
  · rw [if_pos hq]
    by_cases hres : res = "draw"
    · rw [if_pos hres]
      refine ⟨by simp [hres], fun h => absurd hres h, by simp⟩
    · rw [if_neg hres]
      refine ⟨?_, fun _ => rfl, by simp⟩
      constructor
      · intro h; exact absurd h (by simp)
      · intro h; exact absurd h hres
  · rw [if_neg hq] at hid ⊢
    exact absurd hid hq

/-- **C10** witness: marking a pending row with the unrecognized result
`"postponed"` yields status `MISS`, not `HIT` and not `pending`. -/
theorem update_result_status_witness :
    ((PredRow.mk 1 0 "L" "R" "MISS" (some "postponed") 0 0).status = "HIT"
        ↔ "postponed" = "draw") ∧
    ("postponed" ≠ "draw" → (PredRow.mk 1 0 "L" "R" "MISS" (some "postponed") 0 0).status = "MISS") ∧
    (PredRow.mk 1 0 "L" "R" "MISS" (some "postponed") 0 0).status ≠ "pending" :=
  update_result_status [⟨1, 0, "L", "R", "pending", none, 0, 0⟩] 1 "postponed" 0
    (PredRow.mk 1 0 "L" "R" "MISS" (some "postponed") 0 0)
    (by
      rw [show update_prediction_result [⟨1, 0, "L", "R", "pending", none, 0, 0⟩] 1 "postponed" 0
            = [PredRow.mk 1 0 "L" "R" "MISS" (some "postponed") 0 0] from rfl]
      exact List.mem_singleton_self _)
    rfl

/-- **C9** (amended).  A marking request sets the row's status to `HIT` or
`MISS` (and its result and stake) — but the update is unconditional on the
current status, so predictions are *not* immutable after marking: two
successive marking requests for the same id leave the store exactly as if
only the second had run (last write wins). -/
theorem update_result_overwrites (rows : List PredRow) (pred_id : ℕ)
    (res1 : String) (st1 : ℚ) (res2 : String) (st2 : ℚ) :
    update_prediction_result (update_prediction_result rows pred_id res1 st1) pred_id res2 st2
      = update_prediction_result rows pred_id res2 st2 ∧
    (∀ r ∈ update_prediction_result rows pred_id res1 st1, r.id = pred_id →
        r.status = "HIT" ∨ r.status = "MISS") := by
  constructor
  · unfold update_prediction_result
    rw [List.map_map]
    apply List.map_congr_left
    intro r _
    by_cases h : r.id = pred_id
    · simp only [Function.comp_apply, h, if_pos]
    · simp only [Function.comp_apply, h, if_neg, not_false_iff]
  · intro r hr hid
    simp only [update_prediction_result, List.mem_map] at hr
    obtain ⟨q, _, rfl⟩ := hr
    by_cases hq : q.id = pred_id
    · rw [if_pos hq]
      by_cases hres : res1 = "draw"
      · exact Or.inl (by simp [hres])
      · exact Or.inr (by simp [hres])
    · rw [if_neg hq] at hid ⊢
      exact absurd hid hq

/-- **C9** witness: concrete last-write-wins instance, and the marked row's
status is `HIT` or `MISS`. -/
theorem update_result_overwrites_witness :
    update_prediction_result
        (update_prediction_result [⟨1, 0, "L", "R", "pending", none, 0, 0⟩] 1 "draw" (1/2))
        1 "loss" 7
      = update_prediction_result [⟨1, 0, "L", "R", "pending", none, 0, 0⟩] 1 "loss" 7 ∧
    ((PredRow.mk 1 0 "L" "R" "HIT" (some "draw") (1/2) 0).status = "HIT" ∨
     (PredRow.mk 1 0 "L" "R" "HIT" (some "draw") (1/2) 0).status = "MISS") :=
  ⟨(update_result_overwrites [⟨1, 0, "L", "R", "pending", none, 0, 0⟩] 1 "draw" (1/2) "loss" 7).1,
   (update_result_overwrites [⟨1, 0, "L", "R", "pending", none, 0, 0⟩] 1 "draw" (1/2) "loss" 7).2
     (PredRow.mk 1 0 "L" "R" "HIT" (some "draw") (1/2) 0)
     (by
       rw [show update_prediction_result [⟨1, 0, "L", "R", "pending", none, 0, 0⟩] 1 "draw" (1/2)
             = [PredRow.mk 1 0 "L" "R" "HIT" (some "draw") (1/2) 0] from rfl]
       exact List.mem_singleton_self _)
     rfl⟩

/-- **C9** counterexample: a prediction already marked `HIT` is changed again
by a second marking request — its status, result and stake are overwritten to
`MISS`, `"loss"` and the new stake, so it is not immutable after the first
marking. -/
theorem marked_row_changed_again_counterexample :
    (update_prediction_result [⟨1, 0, "L", "R", "pending", none, 0, 0⟩] 1 "draw" (1/2))
      = [PredRow.mk 1 0 "L" "R" "HIT" (some "draw") (1/2) 0] ∧
    (update_prediction_result
        (update_prediction_result [⟨1, 0, "L", "R", "pending", none, 0, 0⟩] 1 "draw" (1/2))
        1 "loss" 7)
      = [PredRow.mk 1 0 "L" "R" "MISS" (some "loss") 7 0] ∧
    ("HIT" : String) ≠ "MISS" :=
  ⟨rfl, rfl, by decide⟩

/-! ## Persistence filter (`src/app.py`, `perform_analysis` step 3) -/

/-- The prediction-building loop of `perform_analysis`: score each fixture
with the aggregate boost, keep it (with `pred['date'] = today`) iff its
`ev_percent` exceeds 5. -/
def perform_analysis_predictions (fixtures : List Match) (boost : ℚ) (today : String) :
    List EvResult :=
  fixtures.filterMap (fun f =>
    let pred := calculate_ev f boost
    if 5 < pred.ev_percent then some { pred with date := today } else none)

/-- **C4**.  A prediction enters the persisted set iff it comes from a
fixture whose `ev_percent` exceeds 5; fixtures at or below 5 are dropped
silently. -/
theorem predictions_persisted_iff_ev_gt_5 (fixtures : List Match) (boost : ℚ)
    (today : String) (p : EvResult) :
    p ∈ perform_analysis_predictions fixtures boost today ↔
      ∃ f ∈ fixtures, 5 < (calculate_ev f boost).ev_percent ∧
        p = { calculate_ev f boost with date := today } := by
  simp only [perform_analysis_predictions, List.mem_filterMap]
  constructor
  · rintro ⟨f, hf, hsome⟩
    split_ifs at hsome with hev
    · exact ⟨f, hf, hev, (Option.some_injective _ hsome).symm⟩
  · rintro ⟨f, hf, hev, rfl⟩
    exact ⟨f, hf, by simp only [if_pos hev]⟩

/-- **C4** witness: the spec's second scenario (unknown league, odds 4.20,
EV 17.6% above 5) is persisted; a fixture at EV exactly 5 or below is not. -/
theorem predictions_persisted_iff_ev_gt_5_witness :
    ({ calculate_ev ⟨"Zed", 21/5, 0⟩ 0 with date := "2026-10-12" } : EvResult)
      ∈ perform_analysis_predictions [⟨"Zed", 21/5, 0⟩] 0 "2026-10-12" :=
  (predictions_persisted_iff_ev_gt_5 [⟨"Zed", 21/5, 0⟩] 0 "2026-10-12"
      { calculate_ev ⟨"Zed", 21/5, 0⟩ 0 with date := "2026-10-12" }).mpr
    ⟨⟨"Zed", 21/5, 0⟩, List.mem_singleton_self _,
     by
       have hl : (draw_prone_leagues.any (fun l => strIn l "Zed")) = false := by decide
       norm_num [calculate_ev, hl, pyRound, round_half_even],
     rfl⟩

/-! ## Scheduling (`src/app.py`): the run-in-progress flag -/

/-- The scheduler-visible state: the module-global `analysis_running` flag
and the number of `perform_analysis` invocations currently executing. -/
structure Sched where
  analysis_running : Bool
  active : ℕ
  deriving DecidableEq

/-- The events that start or finish an analysis cycle.  `startFlagged` is the
guarded entry of `run_initial_analysis` (used by both the startup task and
the `/trigger-analysis` endpoint, which first checks the flag and returns a
409 rejection when it is set); `startTimer` is one iteration of the
`run_daily_analysis` loop, which calls `perform_analysis()` without checking
or setting the flag; the `finish` events are cycle completion (the guarded
path resets the flag in its `finally`). -/
inductive SchedEv where
  | startFlagged
  | startTimer
  | finishFlagged
  | finishTimer
  deriving DecidableEq

/-- One scheduler transition: the next state and whether a start event
actually began a cycle (`false` = the trigger was rejected). -/
def sched_step : Sched → SchedEv → Sched × Bool
  | s, .startFlagged =>
      if s.analysis_running then (s, false) else (⟨true, s.active + 1⟩, true)
  | s, .startTimer => (⟨s.analysis_running, s.active + 1⟩, true)
  | s, .finishFlagged => (⟨false, s.active - 1⟩, true)
  | s, .finishTimer => (⟨s.analysis_running, s.active - 1⟩, true)

/-- **C5**.  Mutual exclusion fails: from the idle state, a timer tick starts
a cycle (one cycle active), after which a manual trigger is *accepted* (the
timer path never sets `analysis_running`), leaving two concurrently active
analysis cycles. -/
theorem concurrent_cycles_reachable :
    1 ≤ (sched_step ⟨false, 0⟩ .startTimer).1.active ∧
    (sched_step (sched_step ⟨false, 0⟩ .startTimer).1 .startFlagged).2 = true ∧
    (sched_step (sched_step ⟨false, 0⟩ .startTimer).1 .startFlagged).1.active = 2 := by
  decide

end FTD
